import Mathlib

/-!
Verification of the Solarflow hub telemetry aggregator
(`src/solarflow/solarflow.py`, class `SolarflowHub`).

The Python class is shallowly embedded: the mutable object becomes an
explicit state record (`SolarflowHub`), each method becomes a state-passing
function, `datetime.now()` becomes an explicit `now : Nat` argument counting
seconds, Python `dict` becomes an association list with Python's
pop/update semantics, and code paths that raise Python exceptions return
`Except.error` values (`PyError`).
-/

namespace Solarflow

/-- Embedding of Python `s.startswith(p)` : `pyStartsWith s p` is true when
`p` is a prefix of `s`.  Defined over the character list so that it reduces
in the kernel. -/
def pyStartsWith (s p : String) : Bool := p.data.isPrefixOf s.data

/-- Embedding of Python `str.split('/')` on the character list: splitting on
`'/'`, keeping empty segments, with `splitOnSlash [] = [[]]` exactly as
Python's `"".split('/') == ['']`. -/
def splitOnSlash : List Char → List (List Char)
  | [] => [[]]
  | c :: rest =>
    let r := splitOnSlash rest
    if c = '/' then [] :: r
    else
      match r with
      | [] => [[c]]
      | h :: tl => (c :: h) :: tl

/-- Embedding of Python `topic.split('/')[-1]` (the metric name). -/
def lastSegment (t : String) : String :=
  String.mk ((splitOnSlash t.data).getLastD [])

/-- Embedding of Python `topic.split('/')[-2]` (the battery serial number).
Total with default `""`; every reachable call site has at least two
segments, so the default is never used on the paths the code exercises. -/
def secondLastSegment (t : String) : String :=
  let parts := splitOnSlash t.data
  String.mk (parts.getD (parts.length - 2) [])

/-- Whitespace stripping as done by Python `int(...)` before parsing. -/
def pyTrim (l : List Char) : List Char :=
  ((l.dropWhile Char.isWhitespace).reverse.dropWhile Char.isWhitespace).reverse

/-- Embedding of Python `int(payload)` in `handleMsg` (line 104): an optional
sign followed by one or more decimal digits, surrounding whitespace ignored;
anything else raises `ValueError`, modelled as `none`.  (CPython additionally
accepts underscore digit grouping and non-ASCII digits; those exotic forms
are outside this embedding, which covers the plain decimal payloads the
device protocol uses.) -/
def pyParseInt (s : String) : Option Int :=
  let t := pyTrim s.data
  let digits := if t.head? = some '-' ∨ t.head? = some '+' then t.drop 1 else t
  if digits ≠ [] ∧ digits.all Char.isDigit then
    let n : Nat := digits.foldl (fun acc c => 10 * acc + (c.toNat - 48)) 0
    some (if t.head? = some '-' then -(n : Int) else (n : Int))
  else none

/-- Modelled from the spec: the `TimewindowBuffer` class lives in `utils.py`,
which is not part of the provided sources.  The spec treats it as a black box
"time-windowed collection of samples" exposing `add(sample)` and a weighted
average `wavg()`, and explicitly leaves the weighting function open.  We model
the buffer as the list of retained samples, `add` prepending the newest
sample. -/
structure TimewindowBuffer where
  samples : List Int
deriving DecidableEq

/-- Modelled from the spec: `TimewindowBuffer.add` records a new sample. -/
def TimewindowBuffer.add (b : TimewindowBuffer) (v : Int) : TimewindowBuffer :=
  ⟨v :: b.samples⟩

/-- Modelled from the spec: `TimewindowBuffer.wavg` is a weighted average of
the retained samples; the spec leaves the weights open, so we fix the uniform
mean (`0` on an empty buffer).  No claim depends on the particular weights. -/
def TimewindowBuffer.wavg (b : TimewindowBuffer) : ℚ :=
  if b.samples = [] then 0
  else ((b.samples.foldl (· + ·) 0 : ℤ) : ℚ) / (b.samples.length : ℚ)

/-- Python exceptions that the embedded code can raise. -/
inductive PyError where
  /-- `AttributeError`: access to an attribute / method that does not exist. -/
  | attributeError (name : String)
  /-- `ValueError`: `int(...)` applied to a non-numeric string. -/
  | valueError (payload : String)
  /-- `NameError`: reference to an undefined global name. -/
  | nameError (name : String)
deriving DecidableEq

/-- An inbound MQTT message: `msg.topic` and the decoded `msg.payload`. -/
structure Msg where
  topic : String
  payload : String
deriving DecidableEq

/-- State of `SolarflowHub` (`__init__`, lines 17-33).  `datetime` timestamps
become `Nat` seconds, the float `solarInputPower` becomes `ℚ`, and the
`batteries` dict becomes an association list. -/
structure SolarflowHub where
  device_id : String
  solarInputValues : TimewindowBuffer
  solarInputPower : ℚ
  outputPackPower : Int
  packInputPower : Int
  outputHomePower : Int
  electricLevel : Int
  batteries : List (String × Int)
  outputLimit : Int
  lastFullTS : Option Nat
  lastEmptyTS : Option Nat
  lastSolarInputTS : Option Nat
  property_topic : String
deriving DecidableEq

/-- `SolarflowHub.__init__` (lines 17-33).  The `window` parameter of
`__init__` is accepted but never stored or read by the Python code, so it
does not appear in the state. -/
def SolarflowHub.init (device_id : String) : SolarflowHub where
  device_id := device_id
  solarInputValues := ⟨[]⟩
  solarInputPower := -1
  outputPackPower := 0
  packInputPower := 0
  outputHomePower := -1
  electricLevel := -1
  batteries := [("none", -1)]
  outputLimit := -1
  lastFullTS := none
  lastEmptyTS := none
  lastSolarInputTS := none
  property_topic := "iot/73bkTV/" ++ device_id ++ "/properties/write"

/-- Python `dict.pop(k, None)`: remove the entry with key `k` if present
(keys are unique in every dict the code builds). -/
def dictPop : List (String × Int) → String → List (String × Int)
  | [], _ => []
  | e :: rest, k => if e.1 = k then rest else e :: dictPop rest k

/-- Python `dict.update({k: v})`: overwrite the entry for `k` in place if the
key is present, otherwise append it. -/
def dictSet : List (String × Int) → String → Int → List (String × Int)
  | [], k, v => [(k, v)]
  | e :: rest, k, v => if e.1 = k then (k, v) :: rest else e :: dictSet rest k v

/-- `updSolarInput` (lines 62-65): push the sample, recompute the smoothed
average, stamp `lastSolarInputTS`. -/
def SolarflowHub.updSolarInput (s : SolarflowHub) (now : Nat) (value : Int) :
    SolarflowHub :=
  let buf := s.solarInputValues.add value
  { s with solarInputValues := buf, solarInputPower := buf.wavg,
           lastSolarInputTS := some now }

/-- `updElectricLevel` (lines 67-72): two independent `if`s for the full and
empty timestamps, then the level assignment. -/
def SolarflowHub.updElectricLevel (s : SolarflowHub) (now : Nat) (value : Int) :
    SolarflowHub :=
  let s1 := if value = 100 then { s with lastFullTS := some now } else s
  let s2 := if value = 0 then { s1 with lastEmptyTS := some now } else s1
  { s2 with electricLevel := value }

/-- `updOutputPack` (lines 74-75). -/
def SolarflowHub.updOutputPack (s : SolarflowHub) (value : Int) : SolarflowHub :=
  { s with outputPackPower := value }

/-- `updPackInput` (lines 77-78). -/
def SolarflowHub.updPackInput (s : SolarflowHub) (value : Int) : SolarflowHub :=
  { s with packInputPower := value }

/-- `updOutputHome` (lines 80-81). -/
def SolarflowHub.updOutputHome (s : SolarflowHub) (value : Int) : SolarflowHub :=
  { s with outputHomePower := value }

/-- `updOutputLimit` (lines 83-84). -/
def SolarflowHub.updOutputLimit (s : SolarflowHub) (value : Int) : SolarflowHub :=
  { s with outputLimit := value }

/-- `updBatterySoC` (lines 86-88): `self.batteries.pop("none", None)` then
`self.batteries.update({sn: value})`. -/
def SolarflowHub.updBatterySoC (s : SolarflowHub) (sn : String) (value : Int) :
    SolarflowHub :=
  { s with batteries := dictSet (dictPop s.batteries "none") sn value }

/-- Dispatch part of `handleMsg` (lines 103-122): extract the metric from the
topic, parse the payload (`int(...)` raises `ValueError` on failure, before
any state change), then match on the metric name; an unknown metric only
produces the warning of line 122.  The returned list collects the warnings
logged during the call. -/
def SolarflowHub.dispatchMsg (s : SolarflowHub) (now : Nat) (msg : Msg) :
    Except PyError (SolarflowHub × List String) :=
  let metric := lastSegment msg.topic
  match pyParseInt msg.payload with
  | none => Except.error (PyError.valueError msg.payload)
  | some value =>
    if metric = "electricLevel" then
      Except.ok (s.updElectricLevel now value, [])
    else if metric = "solarInputPower" then
      Except.ok (s.updSolarInput now value, [])
    else if metric = "outputPackPower" then
      Except.ok (s.updOutputPack value, [])
    else if metric = "packInputPower" then
      Except.ok (s.updPackInput value, [])
    else if metric = "outputHomePower" then
      Except.ok (s.updOutputHome value, [])
    else if metric = "outputLimit" then
      Except.ok (s.updOutputLimit value, [])
    else if metric = "socLevel" then
      Except.ok (s.updBatterySoC (secondLastSegment msg.topic) value, [])
    else
      Except.ok (s, ["Ignoring solarflow-hub metric: " ++ metric])

/-- `handleMsg` (lines 91-122).  The guard of line 92 checks only the topic
prefix `'solarflow-hub'` and payload truthiness.  The staleness branch of
lines 96-101 calls `self.updSolarInputPower(0)` — a method that does not
exist on the class (the update method is named `updSolarInput`), so taking
that branch raises `AttributeError` before anything else happens. -/
def SolarflowHub.handleMsg (s : SolarflowHub) (now : Nat) (msg : Msg) :
    Except PyError (SolarflowHub × List String) :=
  if pyStartsWith msg.topic "solarflow-hub" = true ∧ msg.payload ≠ "" then
    match s.lastSolarInputTS with
    | some ts =>
      if 120 < now - ts then
        Except.error (PyError.attributeError "updSolarInputPower")
      else
        s.dispatchMsg now msg
    | none => s.dispatchMsg now msg
  else
    Except.ok (s, [])

/-- The output-limit value computation of `setOutputLimit` (lines 124-135):
clamp negatives to `0`; for values `≤ 100` quantize with
`divmod(limit, 30)` to `30 * m + 30 * (r // 15)`; larger values pass
through. -/
def quantizeOutputLimit (limit : Int) : Int :=
  let l := if limit < 0 then 0 else limit
  if l ≤ 100 then
    let m := l / 30
    let r := l % 30
    30 * m + 30 * (r / 15)
  else l

/-- `setOutputLimit` (lines 124-140): after computing the quantized limit the
method publishes on `topic_limit_solarflow` (line 138) — a global name that
is defined nowhere in the module and is not imported, so every call raises
`NameError` before publishing or returning (`self.property_topic`, built in
`__init__`, is never used). -/
def SolarflowHub.setOutputLimit (_s : SolarflowHub) (limit : Int) :
    Except PyError Int :=
  let _quantized := quantizeOutputLimit limit
  Except.error (PyError.nameError "topic_limit_solarflow")

/-- `getLastFullBattery` (lines 147-152), with the current time explicit;
`total_seconds()/3600` becomes exact rational division. -/
def SolarflowHub.getLastFullBattery (s : SolarflowHub) (now : Nat) : ℚ :=
  match s.lastFullTS with
  | some ts => (((now : ℤ) - (ts : ℤ) : ℤ) : ℚ) / 3600
  | none => -1

/-- `getLastEmptyBattery` (lines 155-160). -/
def SolarflowHub.getLastEmptyBattery (s : SolarflowHub) (now : Nat) : ℚ :=
  match s.lastEmptyTS with
  | some ts => (((now : ℤ) - (ts : ℤ) : ℤ) : ℚ) / 3600
  | none => -1

/-- Claim C2 (counterexample): the spec's quantization table demands
`quantizeOutputLimit 29 = 0`, but the code rounds `29` up to `30`
(`divmod(29, 30) = (0, 29)` and `29 // 15 = 1`). -/
theorem C2_counterexample : quantizeOutputLimit 29 ≠ 0 := by decide

/-- Claim C2 (amended): the quantization table with the `29` entry fixed to
`30`; all other entries of the spec's table are as stated. -/
theorem C2_quantization_table :
    quantizeOutputLimit (-5) = 0 ∧ quantizeOutputLimit 0 = 0 ∧
    quantizeOutputLimit 29 = 30 ∧ quantizeOutputLimit 30 = 30 ∧
    quantizeOutputLimit 44 = 30 ∧ quantizeOutputLimit 45 = 60 ∧
    quantizeOutputLimit 100 = 90 ∧ quantizeOutputLimit 150 = 150 := by
  refine ⟨?_, ?_, ?_, ?_, ?_, ?_, ?_, ?_⟩ <;> decide

/-- Claim C5: the quantized value is `0` for negative requests, the identity
above `100`, and `30 * floor(v/30) + 30 * floor((v mod 30)/15)` on `[0,100]`,
where it always lies in `{0, 30, 60, 90, 120}`. -/
theorem C5_quantize_formula (v : ℤ) :
    (v < 0 → quantizeOutputLimit v = 0) ∧
    (100 < v → quantizeOutputLimit v = v) ∧
    (0 ≤ v → v ≤ 100 →
      quantizeOutputLimit v = 30 * (v / 30) + 30 * (v % 30 / 15) ∧
      (quantizeOutputLimit v = 0 ∨ quantizeOutputLimit v = 30 ∨
       quantizeOutputLimit v = 60 ∨ quantizeOutputLimit v = 90 ∨
       quantizeOutputLimit v = 120)) := by
  refine ⟨fun h => ?_, fun h => ?_, fun h0 h1 => ⟨?_, ?_⟩⟩ <;>
    simp only [quantizeOutputLimit] <;> split_ifs <;> omega

/-- Claim C5 (witness): the formula and range membership evaluated at
`v = 45`. -/
theorem C5_quantize_formula_witness :
    quantizeOutputLimit 45 = 30 * ((45 : ℤ) / 30) + 30 * ((45 : ℤ) % 30 / 15) ∧
    (quantizeOutputLimit 45 = 0 ∨ quantizeOutputLimit 45 = 30 ∨
     quantizeOutputLimit 45 = 60 ∨ quantizeOutputLimit 45 = 90 ∨
     quantizeOutputLimit 45 = 120) :=
  (C5_quantize_formula 45).2.2 (by decide) (by decide)

/-- Claim C10: the quantization map is monotone non-decreasing on all of `ℤ`;
in particular there is no drop at the `100` boundary. -/
theorem C10_quantize_monotone (a b : ℤ) (h : a ≤ b) :
    quantizeOutputLimit a ≤ quantizeOutputLimit b := by
  simp only [quantizeOutputLimit]
  split_ifs <;> omega

/-- Claim C10 (witness): monotonicity across the half-step boundary at 45. -/
theorem C10_quantize_monotone_witness :
    quantizeOutputLimit 44 ≤ quantizeOutputLimit 45 :=
  C10_quantize_monotone 44 45 (by decide)

/-- Helper: when the staleness branch does not fire (no solar timestamp, or
at most 120 seconds old), `handleMsg` on a qualifying message reduces to the
dispatch. -/
theorem handleMsg_of_not_stale (s : SolarflowHub) (now : Nat) (t p : String)
    (hfresh : ∀ ts, s.lastSolarInputTS = some ts → now - ts ≤ 120)
    (htop : pyStartsWith t "solarflow-hub" = true) (hp : p ≠ "") :
    s.handleMsg now ⟨t, p⟩ = s.dispatchMsg now ⟨t, p⟩ := by
  unfold SolarflowHub.handleMsg
  rw [if_pos ⟨htop, hp⟩]
  cases hts : s.lastSolarInputTS with
  | none => rfl
  | some ts =>
    dsimp only
    rw [if_neg (Nat.not_lt.mpr (hfresh ts hts))]

/-- Claim C1 (code evaluated at the failing condition): whenever
`lastSolarInputTS` is set and more than 120 seconds old, a qualifying
message makes `handleMsg` raise `AttributeError` — line 101 calls
`self.updSolarInputPower(0)`, a method that does not exist (the solar update
method is `updSolarInput`) — instead of injecting the synthetic `0`
sample. -/
theorem C1_stale_solar_raises (s : SolarflowHub) (now ts : Nat) (t p : String)
    (hts : s.lastSolarInputTS = some ts) (hstale : 120 < now - ts)
    (htop : pyStartsWith t "solarflow-hub" = true) (hp : p ≠ "") :
    s.handleMsg now ⟨t, p⟩ =
      Except.error (PyError.attributeError "updSolarInputPower") := by
  unfold SolarflowHub.handleMsg
  rw [if_pos ⟨htop, hp⟩, hts]
  dsimp only
  rw [if_pos hstale]

/-- Claim C1 (witness): concrete stale state, 121 seconds after the last
solar sample. -/
theorem C1_stale_solar_raises_witness :
    SolarflowHub.handleMsg
        { SolarflowHub.init "dev" with lastSolarInputTS := some 0 } 121
        ⟨"solarflow-hub/telemetry/electricLevel", "50"⟩ =
      Except.error (PyError.attributeError "updSolarInputPower") :=
  C1_stale_solar_raises _ 121 0 _ _ rfl (by decide) (by decide) (by decide)

/-- Claim C3 (counterexample): the payload `"abc"` does not parse as a
base-10 integer, and `handleMsg` on it does not drop the message gracefully:
the uncaught `ValueError` from `int(...)` propagates (the handler has no
try/except), so the call fails rather than returning the unchanged state. -/
theorem C3_counterexample :
    pyParseInt "abc" = none ∧
    SolarflowHub.handleMsg (SolarflowHub.init "dev") 0
        ⟨"solarflow-hub/telemetry/electricLevel", "abc"⟩ =
      Except.error (PyError.valueError "abc") :=
  ⟨rfl, rfl⟩

/-- Claim C3 (amended): on an in-namespace, non-empty, non-integer payload
(and with the staleness branch not firing, which would instead raise
`AttributeError`), `handleMsg` raises `ValueError` out of `int(...)`; the
parse happens before any dispatch, so no `HubState` field changes — but the
message is not dropped gracefully: the exception propagates. -/
theorem C3_malformed_payload_raises (s : SolarflowHub) (now : Nat)
    (t p : String)
    (hfresh : ∀ ts, s.lastSolarInputTS = some ts → now - ts ≤ 120)
    (htop : pyStartsWith t "solarflow-hub" = true) (hp : p ≠ "")
    (hparse : pyParseInt p = none) :
    s.handleMsg now ⟨t, p⟩ = Except.error (PyError.valueError p) := by
  rw [handleMsg_of_not_stale s now t p hfresh htop hp]
  unfold SolarflowHub.dispatchMsg
  simp only [hparse]

/-- Claim C3 (witness): a fresh-enough solar timestamp and a decimal-point
payload. -/
theorem C3_malformed_payload_raises_witness :
    SolarflowHub.handleMsg
        { SolarflowHub.init "dev" with lastSolarInputTS := some 10 } 50
        ⟨"solarflow-hub/telemetry/outputLimit", "12.5"⟩ =
      Except.error (PyError.valueError "12.5") :=
  C3_malformed_payload_raises _ 50 _ _
    (fun ts h => by cases h; decide) (by decide) (by decide) (by decide)

/-- Claim C4 (code evaluated at the failing input): `setOutputLimit` never
publishes and never returns the quantized value — line 138 publishes on the
global `topic_limit_solarflow`, which is defined nowhere in the module, so
every call raises `NameError` (the per-device `property_topic` built in
`__init__` is never used). -/
theorem C4_setOutputLimit_raises (s : SolarflowHub) (limit : Int) :
    s.setOutputLimit limit =
      Except.error (PyError.nameError "topic_limit_solarflow") := rfl

/-- Claim C6 (counterexample): the guard of line 92 checks only the prefix
`'solarflow-hub'`, not the telemetry namespace `'solarflow-hub/telemetry/'`:
a message on `solarflow-hub/command/electricLevel` — outside the telemetry
namespace — is fully processed and mutates `electricLevel`, instead of being
ignored. -/
theorem C6_counterexample :
    pyStartsWith "solarflow-hub/command/electricLevel"
        "solarflow-hub/telemetry/" = false ∧
    SolarflowHub.handleMsg (SolarflowHub.init "dev") 0
        ⟨"solarflow-hub/command/electricLevel", "50"⟩ =
      Except.ok ({ SolarflowHub.init "dev" with electricLevel := 50 }, []) ∧
    (SolarflowHub.init "dev").electricLevel ≠ 50 :=
  ⟨rfl, rfl, by decide⟩

/-- Claim C6 (amended): `handleMsg` is a no-op — same state, no warning, no
exception — whenever the payload is empty or the topic does not start with
`'solarflow-hub'` (the code's actual guard, which is weaker than the
spec's `solarflow-hub/telemetry/` namespace). -/
theorem C6_out_of_namespace_noop (s : SolarflowHub) (now : Nat) (t p : String)
    (h : p = "" ∨ pyStartsWith t "solarflow-hub" = false) :
    s.handleMsg now ⟨t, p⟩ = Except.ok (s, []) := by
  have hc : ¬(pyStartsWith t "solarflow-hub" = true ∧ p ≠ "") := by
    rintro ⟨h1, h2⟩
    rcases h with h | h
    · exact h2 h
    · rw [h] at h1
      exact Bool.noConfusion h1
  unfold SolarflowHub.handleMsg
  rw [if_neg hc]

/-- Claim C6 (witness): an out-of-prefix topic with a valid payload is left
untouched. -/
theorem C6_out_of_namespace_noop_witness :
    SolarflowHub.handleMsg (SolarflowHub.init "dev") 0
        ⟨"other-device/telemetry/electricLevel", "50"⟩ =
      Except.ok (SolarflowHub.init "dev", []) :=
  C6_out_of_namespace_noop _ 0 _ _ (Or.inr (by decide))

/-- Claim C7 (counterexample): an `electricLevel` message carrying `100`
updates `lastFullTS` in addition to `electricLevel`, so the dispatch does not
leave "every other HubState field unchanged" as claimed. -/
theorem C7_counterexample :
    SolarflowHub.handleMsg (SolarflowHub.init "dev") 5
        ⟨"solarflow-hub/telemetry/electricLevel", "100"⟩ =
      Except.ok
        ({ SolarflowHub.init "dev" with
            electricLevel := 100, lastFullTS := some 5 }, []) ∧
    (SolarflowHub.init "dev").lastFullTS ≠ some 5 :=
  ⟨rfl, by decide⟩

/-- Claim C7 (amended): complete frame characterization of one dispatched
message, assuming the staleness branch does not fire (it would raise).  For
`outputPackPower`, `packInputPower`, `outputHomePower` and `outputLimit`
exactly the corresponding field becomes `v`; for `electricLevel` the level
becomes `v` and additionally `lastFullTS` (when `v = 100`) or `lastEmptyTS`
(when `v = 0`) is stamped; for `solarInputPower` the raw sample feeds the
buffer, the field takes the buffer's weighted average (not `v` itself), and
`lastSolarInputTS` is stamped; for `socLevel` only the batteries map changes,
keyed by the serial from the topic.  All other fields are unchanged, and no
warning is logged. -/
theorem C7_dispatch_frame (s : SolarflowHub) (now : Nat) (t p : String)
    (v : Int)
    (hfresh : ∀ ts, s.lastSolarInputTS = some ts → now - ts ≤ 120)
    (htop : pyStartsWith t "solarflow-hub" = true) (hp : p ≠ "")
    (hv : pyParseInt p = some v) :
    (lastSegment t = "electricLevel" →
      s.handleMsg now ⟨t, p⟩ = Except.ok
        ({ s with electricLevel := v,
                  lastFullTS := if v = 100 then some now else s.lastFullTS,
                  lastEmptyTS := if v = 0 then some now else s.lastEmptyTS },
         [])) ∧
    (lastSegment t = "solarInputPower" →
      s.handleMsg now ⟨t, p⟩ = Except.ok
        ({ s with solarInputValues := s.solarInputValues.add v,
                  solarInputPower := (s.solarInputValues.add v).wavg,
                  lastSolarInputTS := some now }, [])) ∧
    (lastSegment t = "outputPackPower" →
      s.handleMsg now ⟨t, p⟩ =
        Except.ok ({ s with outputPackPower := v }, [])) ∧
    (lastSegment t = "packInputPower" →
      s.handleMsg now ⟨t, p⟩ =
        Except.ok ({ s with packInputPower := v }, [])) ∧
    (lastSegment t = "outputHomePower" →
      s.handleMsg now ⟨t, p⟩ =
        Except.ok ({ s with outputHomePower := v }, [])) ∧
    (lastSegment t = "outputLimit" →
      s.handleMsg now ⟨t, p⟩ =
        Except.ok ({ s with outputLimit := v }, [])) ∧
    (lastSegment t = "socLevel" →
      s.handleMsg now ⟨t, p⟩ = Except.ok
        ({ s with batteries :=
            dictSet (dictPop s.batteries "none") (secondLastSegment t) v },
         [])) := by
  rw [handleMsg_of_not_stale s now t p hfresh htop hp]
  unfold SolarflowHub.dispatchMsg
  dsimp only
  rw [hv]
  dsimp only
  refine ⟨fun hm => ?_, fun hm => ?_, fun hm => ?_, fun hm => ?_,
    fun hm => ?_, fun hm => ?_, fun hm => ?_⟩ <;> rw [hm]
  · rw [if_pos rfl]
    unfold SolarflowHub.updElectricLevel
    dsimp only
    split_ifs <;> rfl
  · rw [if_neg (by decide), if_pos rfl]
    rfl
  · rw [if_neg (by decide), if_neg (by decide), if_pos rfl]
    rfl
  · rw [if_neg (by decide), if_neg (by decide), if_neg (by decide),
      if_pos rfl]
    rfl
  · rw [if_neg (by decide), if_neg (by decide), if_neg (by decide),
      if_neg (by decide), if_pos rfl]
    rfl
  · rw [if_neg (by decide), if_neg (by decide), if_neg (by decide),
      if_neg (by decide), if_neg (by decide), if_pos rfl]
    rfl
  · rw [if_neg (by decide), if_neg (by decide), if_neg (by decide),
      if_neg (by decide), if_neg (by decide), if_neg (by decide),
      if_pos rfl]
    rfl

/-- Claim C7 (witness): an `outputPackPower` message on a fresh hub sets
exactly that field. -/
theorem C7_dispatch_frame_witness :
    SolarflowHub.handleMsg (SolarflowHub.init "dev") 0
        ⟨"solarflow-hub/telemetry/outputPackPower", "75"⟩ =
      Except.ok ({ SolarflowHub.init "dev" with outputPackPower := 75 }, []) :=
  (C7_dispatch_frame (SolarflowHub.init "dev") 0 _ _ 75
      (fun _ h => by cases h) (by decide) (by decide) (by decide)).2.2.1
    (by decide)

/-- Claim C8: `updElectricLevel` stamps `lastFullTS` exactly on `v = 100` and
`lastEmptyTS` exactly on `v = 0` (independent branches), always stores the
level; the hours-since accessors return `-1` while the timestamp is unset and
otherwise the elapsed seconds divided by 3600. -/
theorem C8_full_empty_tracking (s : SolarflowHub) (now nowq : Nat) (v : Int) :
    ((s.updElectricLevel now v).lastFullTS =
      if v = 100 then some now else s.lastFullTS) ∧
    ((s.updElectricLevel now v).lastEmptyTS =
      if v = 0 then some now else s.lastEmptyTS) ∧
    ((s.updElectricLevel now v).electricLevel = v) ∧
    ((s.updElectricLevel now 100).getLastFullBattery nowq =
      (((nowq : ℤ) - (now : ℤ) : ℤ) : ℚ) / 3600) ∧
    (SolarflowHub.getLastFullBattery { s with lastFullTS := none } nowq
      = -1) ∧
    ((s.updElectricLevel now 0).getLastEmptyBattery nowq =
      (((nowq : ℤ) - (now : ℤ) : ℤ) : ℚ) / 3600) ∧
    (SolarflowHub.getLastEmptyBattery { s with lastEmptyTS := none } nowq
      = -1) := by
  refine ⟨?_, ?_, rfl, rfl, rfl, rfl, rfl⟩
  · unfold SolarflowHub.updElectricLevel
    dsimp only
    split_ifs <;> rfl
  · unfold SolarflowHub.updElectricLevel
    dsimp only
    split_ifs <;> rfl

/-- Helper: removing a key with `dictPop` only ever removes entries, so
membership in the result implies membership in the original dict. -/
theorem mem_of_mem_dictPop (d : List (String × Int)) (k : String)
    (e : String × Int) (h : e ∈ dictPop d k) : e ∈ d := by
  induction d with
  | nil => simp [dictPop] at h
  | cons hd tl ih =>
    simp only [dictPop] at h
    split at h
    · exact List.mem_cons_of_mem _ h
    · rcases List.mem_cons.mp h with h | h
      · exact h ▸ List.mem_cons_self _ _
      · exact List.mem_cons_of_mem _ (ih h)

/-- Helper: every entry of `dictSet d k v` is either the written entry
`(k, v)` or an entry of `d`. -/
theorem mem_dictSet (d : List (String × Int)) (k : String) (v : Int)
    (e : String × Int) (h : e ∈ dictSet d k v) : e = (k, v) ∨ e ∈ d := by
  induction d with
  | nil =>
    simp only [dictSet, List.mem_singleton] at h
    exact Or.inl h
  | cons hd tl ih =>
    simp only [dictSet] at h
    split at h
    · rcases List.mem_cons.mp h with h | h
      · exact Or.inl h
      · exact Or.inr (List.mem_cons_of_mem _ h)
    · rcases List.mem_cons.mp h with h | h
      · exact Or.inr (h ▸ List.mem_cons_self _ _)
      · rcases ih h with h | h
        · exact Or.inl h
        · exact Or.inr (List.mem_cons_of_mem _ h)

/-- Helper: `dictSet` never returns an empty dict. -/
theorem dictSet_ne_nil (d : List (String × Int)) (k : String) (v : Int) :
    dictSet d k v ≠ [] := by
  cases d with
  | nil => simp [dictSet]
  | cons hd tl =>
    simp only [dictSet]
    split <;> simp

/-- The batteries-map invariant claimed by the spec: never empty, and either
exactly the placeholder or free of the `"none"` key. -/
def batteriesInv (d : List (String × Int)) : Prop :=
  d ≠ [] ∧ (d = [("none", -1)] ∨ ∀ e ∈ d, e.1 ≠ "none")

/-- Helper: one `updBatterySoC` call with a serial other than `"none"`, from
a state satisfying the invariant, yields a non-empty, `"none"`-free map. -/
theorem updBatterySoC_inv (s : SolarflowHub) (sn : String) (v : Int)
    (hsn : sn ≠ "none") (hs : batteriesInv s.batteries) :
    (s.updBatterySoC sn v).batteries ≠ [] ∧
      ∀ e ∈ (s.updBatterySoC sn v).batteries, e.1 ≠ "none" := by
  refine ⟨dictSet_ne_nil _ _ _, fun e he => ?_⟩
  rcases mem_dictSet _ _ _ _ he with rfl | he
  · exact hsn
  · rcases hs.2 with hplaceholder | hfree
    · rw [hplaceholder] at he
      simp [dictPop] at he
    · exact hfree e (mem_of_mem_dictPop _ _ _ he)

/-- Helper: the invariant is preserved by any sequence of `updBatterySoC`
calls whose serials are all different from `"none"`. -/
theorem foldl_updBatterySoC_inv (ops : List (String × Int))
    (s : SolarflowHub) (hops : ∀ o ∈ ops, o.1 ≠ "none")
    (hs : batteriesInv s.batteries) :
    batteriesInv
      (ops.foldl (fun s o => s.updBatterySoC o.1 o.2) s).batteries := by
  induction ops generalizing s with
  | nil => exact hs
  | cons hd tl ih =>
    simp only [List.foldl_cons]
    apply ih
    · exact fun o ho => hops o (List.mem_cons_of_mem _ ho)
    · have h :=
        updBatterySoC_inv s hd.1 hd.2 (hops hd (List.mem_cons_self _ _)) hs
      exact ⟨h.1, Or.inr h.2⟩

/-- Claim C9 (counterexample): a `socLevel` update for the (legal) serial
string `"none"` with value `-1`, arriving after a real battery has reported,
produces a map holding both the placeholder entry and a real serial entry —
the claimed "never both" invariant fails for that update sequence. -/
theorem C9_counterexample :
    (((SolarflowHub.init "dev").updBatterySoC "SN1" 80).updBatterySoC
          "none" (-1)).batteries = [("SN1", 80), ("none", -1)] ∧
    ¬((((SolarflowHub.init "dev").updBatterySoC "SN1" 80).updBatterySoC
            "none" (-1)).batteries = [("none", -1)] ∨
      ∀ e ∈ (((SolarflowHub.init "dev").updBatterySoC "SN1" 80).updBatterySoC
            "none" (-1)).batteries, e.1 ≠ "none") :=
  ⟨rfl, by decide⟩

/-- Claim C9 (amended): a fresh hub holds exactly the placeholder
`("none", -1)`; `updBatterySoC "SN1" 80` on it yields exactly
`[("SN1", 80)]`; and after any sequence of `updBatterySoC` calls whose
serials differ from the reserved string `"none"`, the map is non-empty and
is either exactly the placeholder or contains no `"none"` key. -/
theorem C9_batteries_invariant (dev : String) :
    (SolarflowHub.init dev).batteries = [("none", -1)] ∧
    ((SolarflowHub.init dev).updBatterySoC "SN1" 80).batteries
      = [("SN1", 80)] ∧
    ∀ (ops : List (String × Int)), (∀ o ∈ ops, o.1 ≠ "none") →
      (ops.foldl (fun s o => s.updBatterySoC o.1 o.2)
          (SolarflowHub.init dev)).batteries ≠ [] ∧
      ((ops.foldl (fun s o => s.updBatterySoC o.1 o.2)
            (SolarflowHub.init dev)).batteries = [("none", -1)] ∨
       ∀ e ∈ (ops.foldl (fun s o => s.updBatterySoC o.1 o.2)
            (SolarflowHub.init dev)).batteries, e.1 ≠ "none") := by
  refine ⟨rfl, rfl, fun ops hops => ?_⟩
  exact foldl_updBatterySoC_inv ops _ hops ⟨List.cons_ne_nil _ _, Or.inl rfl⟩

/-- Claim C9 (witness): the invariant instantiated for the single update
`("SN1", 80)`. -/
theorem C9_batteries_invariant_witness :
    ([(("SN1" : String), (80 : Int))].foldl
        (fun s o => s.updBatterySoC o.1 o.2)
        (SolarflowHub.init "dev")).batteries ≠ [] :=
  ((C9_batteries_invariant "dev").2.2 [("SN1", 80)] (by decide)).1

end Solarflow
